import Mathlib

/-!
Verification development for the epidemic vaccine-strategies repository.

The development shallowly embeds the two core modules:

* `covid/SEAIR.py` — the compartmental step engine `SEAIR.simulate`
  (lines 40–139).  Machine floats are modelled by exact rationals `ℚ`;
  numpy matrices of shape (#regions, #age_groups) are functions
  `Fin nr → Fin na → ℚ`.  The rate constants `beta, sigma, alpha, omega,
  gamma, p, epsilon, delta` are the values the source derives once from
  its configuration (SEAIR.py lines 71–82); the embedding quantifies over
  them.  The stochastic Poisson draws (`np.random.poisson`) are modelled
  by caller-supplied draw oracles indexed by the sub-period.
* `vaccine_allocation_model/MDP.py` — the decision-process loop
  (`run`, `check_stop_criteria`, `get_exogenous_information`,
  `_map_infection_to_response_measures`).

The `State` class (`vaccine_allocation_model/State.py`) and the helper
`generate_weighted_contact_matrix` are referenced by the embedded code but
are not available in the sources; the definitions modelled from the spec
are marked as such in their doc comments.
-/

/-- Matrix of shape (#regions, #age_groups), as in the numpy arrays of
`SEAIR.simulate`. -/
abbrev Mat (nr na : ℕ) := Fin nr → Fin na → ℚ

/-- `np.clip(x, 0, 1)` on a scalar entry. -/
def clip01 (x : ℚ) : ℚ := max 0 (min 1 x)

/-- One (region, age-group) cell of the eight compartment matrices
`S, E1, E2, A, I, R, D, V` unpacked by `state.get_compartments_values()`
(SEAIR.py line 52). -/
structure Cell where
  S : ℚ
  E1 : ℚ
  E2 : ℚ
  A : ℚ
  I : ℚ
  R : ℚ
  D : ℚ
  V : ℚ
deriving DecidableEq, Repr

/-- Result of the vaccination step at one cell: the updated cell and this
cell's contribution `new_V - decision/decision_period` to `unused_V`
(SEAIR.py lines 89–96). -/
def vaccinateCell (c : Cell) (d : ℚ) (dp : ℕ) (epsilon : ℚ) : Cell × ℚ :=
  let new_V := min c.S (d / (dp : ℚ))
  let unusedContrib := new_V - d / (dp : ℚ)
  let successfully_new_V := epsilon * new_V
  ({ c with
      S := c.S - successfully_new_V
      R := c.R + successfully_new_V
      V := c.V + new_V }, unusedContrib)

/-- Result of the compartment-flow step at one cell (SEAIR.py lines
117–137): the updated cell together with the transition values `new_E1`,
`new_I`, `new_D` that the source records. -/
structure FlowOut where
  next : Cell
  newE1 : ℚ
  newI : ℚ
  newD : ℚ
deriving DecidableEq, Repr

/-- The compartment-flow arithmetic of SEAIR.py lines 117–133 at one cell,
with `cases = contact_cases + commuter_cases` at this cell supplied by the
caller.  `new_E1 = np.clip(cases, None, S) = min cases S`. -/
def flowCell (c : Cell) (cases : ℚ)
    (sigma alphaR omega gamma p delta : ℚ) : FlowOut :=
  let new_E1 := min cases c.S
  let new_E2 := c.E1 * sigma * p
  let new_A := c.E1 * sigma * (1 - p)
  let new_I := c.E2 * alphaR
  let new_R_A := c.A * gamma
  let new_R_I := c.I * (1 - delta) * omega
  let new_D := c.I * delta * omega
  { next :=
      { S := c.S - new_E1
        E1 := c.E1 + new_E1 - new_E2 - new_A
        E2 := c.E2 + new_E2 - new_I
        A := c.A + new_A - new_R_A
        I := c.I + new_I - new_R_I - new_D
        R := c.R + new_R_I + new_R_A
        D := c.D + new_D
        V := c.V }
    newE1 := new_E1
    newI := new_I
    newD := new_D }

/-- One whole sub-period of the loop body of `SEAIR.simulate` at a single
cell: vaccination (lines 89–96) followed by the compartment flows (lines
117–133), with the exposure draw `cases` at this cell supplied by the
caller. -/
def subPeriodCell (c : Cell) (d : ℚ) (dp : ℕ) (epsilon cases : ℚ)
    (sigma alphaR omega gamma p delta : ℚ) : FlowOut :=
  flowCell (vaccinateCell c d dp epsilon).1 cases sigma alphaR omega gamma p delta

/-- The per-cell population total `S+E1+E2+A+I+R+D` (V is a sub-count and
excluded, as in the spec's conservation invariant). -/
def cellTotal (c : Cell) : ℚ :=
  c.S + c.E1 + c.E2 + c.A + c.I + c.R + c.D

/-- All eight compartments of a cell are non-negative. -/
def cellNonneg (c : Cell) : Prop :=
  0 ≤ c.S ∧ 0 ≤ c.E1 ∧ 0 ≤ c.E2 ∧ 0 ≤ c.A ∧ 0 ≤ c.I ∧ 0 ≤ c.R ∧ 0 ≤ c.D ∧ 0 ≤ c.V

instance (c : Cell) : Decidable (cellNonneg c) := by
  unfold cellNonneg; infer_instance

/-- Modelled from the spec: `generate_weighted_contact_matrix` is imported
by SEAIR.py from `covid.utils` but is not among the sources.  Per the
spec (§4.4.4 "Local contact transmission") the effective contact matrix is
the weighted sum of the four baseline contact matrices
(home/school/work/public) using the caller-supplied weights. -/
def generate_weighted_contact_matrix {na : ℕ} (contact_matrices : Fin 4 → Mat na na)
    (weights : Fin 4 → ℚ) : Mat na na :=
  fun b a => ∑ k, weights k * contact_matrices k b a

/-- The constructor/configuration data of `SEAIR.simulate` (SEAIR.py lines
20–38 and the probability/rate block of lines 52–82).  `beta, sigma,
alphaR, omega, gamma` are the values lines 71–82 derive once from the
configuration; the embedding quantifies over them.  The Poisson draws of
the stochastic mode are supplied as oracles indexed by sub-period. -/
structure SEAIRParams (nr na : ℕ) where
  beta : ℚ
  r_e : ℚ
  r_a : ℚ
  p : ℚ
  delta : Fin na → ℚ
  epsilon : ℚ
  sigma : ℚ
  alphaR : ℚ
  omega : ℚ
  gamma : ℚ
  periods_per_day : ℕ
  include_flow : Bool
  stochastic : Bool
  visitors : Mat nr na
  commuters : Fin nr → Fin nr → ℚ
  age_flow_scaling : Fin na → ℚ
  contact_matrices : Fin 4 → Mat na na
  poisContact : ℕ → Mat nr na → Mat nr na
  poisCommuter : ℕ → Mat nr na → Mat nr na

/-- The exogenous information consumed by `SEAIR.simulate`
(SEAIR.py lines 61–64). -/
structure ExogenousInfo where
  alphas : Fin 3 → ℚ
  contact_weights : Fin 4 → ℚ
  flow_scale : ℚ

/-- The mutable data `SEAIR.simulate` works on: the eight compartment
matrices obtained from `state.get_compartments_values()`, the state's
`vaccines_available` and weekday (`state.date.weekday()`), and the saved
per-sub-period histories `total_new_infected` / `total_new_deaths`
(kept as lists of the per-sub-period matrices; the source pre-allocates a
zero array and assigns slot `i` in sub-period `i`, which is the same
data).  `newE1_hist` is a specification-side observer recording the
`new_E1` transition of every sub-period; it is not stored by the source
and is used only to compare the source's accumulated totals against the
spec's words. -/
structure SimState (nr na : ℕ) where
  S : Mat nr na
  E1 : Mat nr na
  E2 : Mat nr na
  A : Mat nr na
  I : Mat nr na
  R : Mat nr na
  D : Mat nr na
  V : Mat nr na
  vaccines_available : ℚ
  weekday : ℕ
  new_infected_hist : List (Mat nr na)
  new_deaths_hist : List (Mat nr na)
  newE1_hist : List (Mat nr na)

variable {nr na : ℕ}

/-- The cell view of a simulation state at region `r`, age group `a`. -/
def stCell (st : SimState nr na) (r : Fin nr) (a : Fin na) : Cell :=
  ⟨st.S r a, st.E1 r a, st.E2 r a, st.A r a, st.I r a, st.R r a, st.D r a, st.V r a⟩

/-- The vaccination step (SEAIR.py lines 89–96) at one cell of the state:
`new_V = np.minimum(S, decision/decision_period)` (the `np.nan_to_num`
wrapper is the identity in exact arithmetic). -/
def vacCellAt (P : SEAIRParams nr na) (decision : Mat nr na) (dp : ℕ)
    (st : SimState nr na) (r : Fin nr) (a : Fin na) : Cell × ℚ :=
  vaccinateCell (stCell st r a) (decision r a) dp P.epsilon

/-- `unused_V = np.sum(new_V - decision/decision_period)`
(SEAIR.py line 90). -/
def unusedVaccines (P : SEAIRParams nr na) (decision : Mat nr na) (dp : ℕ)
    (st : SimState nr na) : ℚ :=
  ∑ r, ∑ a, (vacCellAt P decision dp st r a).2

/-- The live population `N = sum([S, E1, E2, A, I, R])` recomputed after
vaccination (SEAIR.py line 99). -/
def liveN (P : SEAIRParams nr na) (decision : Mat nr na) (dp : ℕ)
    (st : SimState nr na) : Mat nr na :=
  fun r a =>
    (vacCellAt P decision dp st r a).1.S + st.E1 r a + st.E2 r a + st.A r a
      + st.I r a + (vacCellAt P decision dp st r a).1.R

/-- `working_hours = timestep < periods_per_day * 5 and
timestep % periods_per_day == 2`, with
`timestep = (weekday * periods_per_day + i) % decision_period`
(SEAIR.py lines 86 and 103). -/
def working_hours (weekday ppd i dp : ℕ) : Bool :=
  let timestep := (weekday * ppd + i) % dp
  decide (timestep < ppd * 5) && (timestep % ppd == 2)

/-- The commuting-transmission exposures `commuter_cases` of sub-period
`i` (SEAIR.py lines 101–109), computed from the post-vaccination `S` and
`N`:  zero unless `include_flow` holds and the sub-period is a
working-hours sub-period, otherwise
`S/N * matmul(commuters * flow_scale * age_flow_scaling[a], lam_j[:,a])`
with `lam_j = clip(beta * (r_e*E2 + r_a*A + I)/visitors, 0, 1)`; in
stochastic mode the Poisson oracle is applied to the rate matrix. -/
def commuter_cases (P : SEAIRParams nr na) (info : ExogenousInfo)
    (decision : Mat nr na) (dp i : ℕ) (st : SimState nr na) : Mat nr na :=
  if P.include_flow && working_hours st.weekday P.periods_per_day i dp then
    let lam_j : Mat nr na := fun j a =>
      clip01 (P.beta * (P.r_e * st.E2 j a + P.r_a * st.A j a + st.I j a) / P.visitors j a)
    let raw : Mat nr na := fun r a =>
      (vacCellAt P decision dp st r a).1.S / liveN P decision dp st r a
        * ∑ j, P.commuters r j * info.flow_scale * P.age_flow_scaling a * lam_j j a
    if P.stochastic then P.poisCommuter i raw else raw
  else fun _ _ => 0

/-- The local contact-transmission exposures `contact_cases` of sub-period
`i` (SEAIR.py lines 111–115), computed from the post-vaccination `S` and
`N`: `S/N * matmul(lam_i, C)` with
`lam_i = clip(beta * (alphas0*r_e*E2 + alphas1*r_a*A + alphas2*I), 0, 1)`;
in stochastic mode the Poisson oracle is applied to the rate matrix. -/
def contact_cases (P : SEAIRParams nr na) (info : ExogenousInfo)
    (decision : Mat nr na) (dp i : ℕ) (st : SimState nr na) : Mat nr na :=
  let C := generate_weighted_contact_matrix P.contact_matrices info.contact_weights
  let lam_i : Mat nr na := fun r b =>
    clip01 (P.beta * (info.alphas 0 * P.r_e * st.E2 r b
      + info.alphas 1 * P.r_a * st.A r b + info.alphas 2 * st.I r b))
  let raw : Mat nr na := fun r a =>
    (vacCellAt P decision dp st r a).1.S / liveN P decision dp st r a
      * ∑ b, lam_i r b * C b a
  if P.stochastic then P.poisContact i raw else raw

/-- The per-cell result of one whole iteration of the simulation loop of
SEAIR.py (lines 85–137): vaccination followed by the compartment flows,
with the exposure draw `contact_cases + commuter_cases` at the cell. -/
def subPeriodAt (P : SEAIRParams nr na) (info : ExogenousInfo)
    (decision : Mat nr na) (dp i : ℕ) (st : SimState nr na)
    (r : Fin nr) (a : Fin na) : FlowOut :=
  subPeriodCell (stCell st r a) (decision r a) dp P.epsilon
    (contact_cases P info decision dp i st r a + commuter_cases P info decision dp i st r a)
    P.sigma P.alphaR P.omega P.gamma P.p (P.delta a)

/-- One iteration of the simulation loop of `SEAIR.simulate` (SEAIR.py
lines 85–137): updates the compartments cellwise, adds `unused_V` to
`state.vaccines_available` (line 91) and records `new_I` and `new_D` of
this sub-period (lines 136–137). -/
def subPeriod (P : SEAIRParams nr na) (info : ExogenousInfo)
    (decision : Mat nr na) (dp i : ℕ) (st : SimState nr na) : SimState nr na :=
  { S := fun r a => (subPeriodAt P info decision dp i st r a).next.S
    E1 := fun r a => (subPeriodAt P info decision dp i st r a).next.E1
    E2 := fun r a => (subPeriodAt P info decision dp i st r a).next.E2
    A := fun r a => (subPeriodAt P info decision dp i st r a).next.A
    I := fun r a => (subPeriodAt P info decision dp i st r a).next.I
    R := fun r a => (subPeriodAt P info decision dp i st r a).next.R
    D := fun r a => (subPeriodAt P info decision dp i st r a).next.D
    V := fun r a => (subPeriodAt P info decision dp i st r a).next.V
    vaccines_available := st.vaccines_available + unusedVaccines P decision dp st
    weekday := st.weekday
    new_infected_hist :=
      st.new_infected_hist ++ [fun r a => (subPeriodAt P info decision dp i st r a).newI]
    new_deaths_hist :=
      st.new_deaths_hist ++ [fun r a => (subPeriodAt P info decision dp i st r a).newD]
    newE1_hist :=
      st.newE1_hist ++ [fun r a => (subPeriodAt P info decision dp i st r a).newE1] }

/-- `SEAIR.simulate` (SEAIR.py lines 40–139): runs the loop body for
`i in range(decision_period)`. -/
def simulate (P : SEAIRParams nr na) (info : ExogenousInfo)
    (decision : Mat nr na) (dp : ℕ) (st : SimState nr na) : SimState nr na :=
  (List.range dp).foldl (fun s i => subPeriod P info decision dp i s) st

/-- `total_new_infected.sum(axis=0)` returned by `SEAIR.simulate`
(SEAIR.py line 139). -/
def total_new_infected (st : SimState nr na) : Mat nr na :=
  fun r a => (st.new_infected_hist.map (fun M => M r a)).sum

/-- `total_new_deaths.sum(axis=0)` returned by `SEAIR.simulate`
(SEAIR.py line 139). -/
def total_new_deaths (st : SimState nr na) : Mat nr na :=
  fun r a => (st.new_deaths_hist.map (fun M => M r a)).sum

/-- Specification-side observer: the accumulated `new_E1` transitions of
the run, the quantity the spec calls "the total new E1 transitions across
sub-periods". -/
def specTotalNewE1 (st : SimState nr na) : Mat nr na :=
  fun r a => (st.newE1_hist.map (fun M => M r a)).sum

/-- An entrywise non-negative matrix. -/
def MatNonneg (M : Mat nr na) : Prop := ∀ r a, 0 ≤ M r a

/-- All compartments of a simulation state are non-negative. -/
def stNonneg (st : SimState nr na) : Prop := ∀ r a, cellNonneg (stCell st r a)

instance (M : Mat nr na) : Decidable (MatNonneg M) := by
  unfold MatNonneg; infer_instance

instance (st : SimState nr na) : Decidable (stNonneg st) := by
  unfold stNonneg; infer_instance

/-- The non-negativity and range conditions on the parameters of
`SEAIR.simulate`: all its static inputs are non-negative, the
probabilities lie in [0,1], the rate constants lie in [0,1], and the
Poisson draw oracles map non-negative rate matrices to non-negative
counts (as `np.random.poisson` does). -/
structure ParamsNonneg (P : SEAIRParams nr na) (info : ExogenousInfo) : Prop where
  hbeta : 0 ≤ P.beta
  hre : 0 ≤ P.r_e
  hra : 0 ≤ P.r_a
  hp0 : 0 ≤ P.p
  hp1 : P.p ≤ 1
  hdelta : ∀ a, 0 ≤ P.delta a ∧ P.delta a ≤ 1
  heps0 : 0 ≤ P.epsilon
  heps1 : P.epsilon ≤ 1
  hsig0 : 0 ≤ P.sigma
  hsig1 : P.sigma ≤ 1
  halp0 : 0 ≤ P.alphaR
  halp1 : P.alphaR ≤ 1
  hom0 : 0 ≤ P.omega
  hom1 : P.omega ≤ 1
  hgam0 : 0 ≤ P.gamma
  hgam1 : P.gamma ≤ 1
  hvis : ∀ r a, 0 ≤ P.visitors r a
  hcom : ∀ r j, 0 ≤ P.commuters r j
  hafs : ∀ a, 0 ≤ P.age_flow_scaling a
  hcm : ∀ k b a, 0 ≤ P.contact_matrices k b a
  hpoisC : ∀ i M, (∀ r a, 0 ≤ M r a) → ∀ r a, 0 ≤ P.poisContact i M r a
  hpoisK : ∀ i M, (∀ r a, 0 ≤ M r a) → ∀ r a, 0 ≤ P.poisCommuter i M r a
  halphas : ∀ j, 0 ≤ info.alphas j
  hcw : ∀ k, 0 ≤ info.contact_weights k
  hfs : 0 ≤ info.flow_scale

/-- `np.sum` over a (regions × age-groups) matrix. -/
def matSum (M : Mat nr na) : ℚ := ∑ r, ∑ a, M r a

/-- Modelled from the spec: the `State` class
(`vaccine_allocation_model/State.py`) is not among the sources; this
models the compartment fields that `MarkovDecisionProcess.run` and
`check_stop_criteria` read. -/
structure MState (nr na : ℕ) where
  R : Mat nr na
  E1 : Mat nr na
  E2 : Mat nr na
  A : Mat nr na
  I : Mat nr na

/-- `MarkovDecisionProcess.check_stop_criteria` (MDP.py lines 64–79):
stop when the recovered population exceeds 70 % of the total population
or the infected population `E1+E2+A+I` is below 0.1. -/
def check_stop_criteria (population_total : ℚ) (s : MState nr na) : Bool :=
  if matSum s.R / population_total > 7/10 then true
  else if matSum s.E1 + matSum s.E2 + matSum s.A + matSum s.I < 1/10 then true
  else false

/-- The loop of `MarkovDecisionProcess.run` (MDP.py lines 53–58), with
the remaining number of weeks `horizon - week` as fuel.  `trans` is the
composite body of `update_state` (policy decision, exogenous information
and `State.get_transition`, MDP.py lines 112–122), which appends the
fresh state to the path. -/
def mdpLoop (trans : MState nr na → MState nr na) (population_total : ℚ) :
    ℕ → MState nr na → List (MState nr na) → List (MState nr na)
  | 0, _, path => path
  | n + 1, s, path =>
    if check_stop_criteria population_total s then path
    else mdpLoop trans population_total n (trans s) (path ++ [trans s])

/-- The number of state transitions (decision periods elapsed) the loop
performs. -/
def mdpElapsed (trans : MState nr na → MState nr na) (population_total : ℚ) :
    ℕ → MState nr na → ℕ
  | 0, _ => 0
  | n + 1, s =>
    if check_stop_criteria population_total s then 0
    else mdpElapsed trans population_total n (trans s) + 1

/-- `MarkovDecisionProcess.run` after `init()`: the path starts as
`[initial_state]` and the loop runs over `range(time_step, horizon)`. -/
def mdpRun (trans : MState nr na → MState nr na) (population_total : ℚ)
    (time_step horizon : ℕ) (s : MState nr na) : List (MState nr na) :=
  mdpLoop trans population_total (horizon - time_step) s [s]

/-- Modelled from the spec: the fields of the `State` class read by
`_map_infection_to_response_measures` (MDP.py lines 137–147). -/
structure RState (nr na : ℕ) where
  I : Mat nr na
  total_infected : Mat nr na
  new_infected : Mat nr na
  new_deaths : Mat nr na
  D : Mat nr na

instance : Inhabited (RState nr na) :=
  ⟨⟨fun _ _ => 0, fun _ _ => 0, fun _ _ => 0, fun _ _ => 0, fun _ _ => 0⟩⟩

/-- The frozen MLP regression surrogates consumed by the mapper, one per
response measure, as opaque functions feature-vector → scalar
(`models[category].predict(input)[0]`). -/
structure ResponseModels where
  home : (Fin 7 → ℚ) → ℚ
  school : (Fin 7 → ℚ) → ℚ
  work : (Fin 7 → ℚ) → ℚ
  public : (Fin 7 → ℚ) → ℚ
  alphaM : (Fin 7 → ℚ) → ℚ
  movement : (Fin 7 → ℚ) → ℚ

/-- The frozen per-category feature scalers
(`scalers[category].transform`). -/
structure ResponseScalers where
  home : (Fin 7 → ℚ) → Fin 7 → ℚ
  school : (Fin 7 → ℚ) → Fin 7 → ℚ
  work : (Fin 7 → ℚ) → Fin 7 → ℚ
  public : (Fin 7 → ℚ) → Fin 7 → ℚ
  alphaM : (Fin 7 → ℚ) → Fin 7 → ℚ
  movement : (Fin 7 → ℚ) → Fin 7 → ℚ

/-- The configuration values read by the response-measure mapper
(MDP.py lines 155, 169, 183). -/
structure MDPConfig where
  initial_contact_weights : Fin 4 → ℚ
  initial_alphas : Fin 3 → ℚ
  initial_flow_scale : ℚ

/-- The 7-dimensional per-100k feature vector of MDP.py lines 138–150:
active cases, cumulative cases, new cases of the last and second-to-last
period, and the analogous death figures; `path[-2]` is the
second-to-last state of the path. -/
def features (state : RState nr na) (path : List (RState nr na))
    (population_total : ℚ) : Fin 7 → ℚ :=
  ![matSum state.I * 100000 / population_total,
    matSum state.total_infected * 100000 / population_total,
    matSum state.new_infected * 100000 / population_total,
    matSum (path.getD (path.length - 2) default).new_infected * 100000 / population_total,
    matSum state.D * 100000 / population_total,
    matSum state.new_deaths * 100000 / population_total,
    matSum (path.getD (path.length - 2) default).new_deaths * 100000 / population_total]

/-- The computation of new contact weights, alphas and flow scale from a
feature vector (MDP.py lines 152–202): the four contact-weight mappers,
the alpha measure clipped into [1, 100], and the flow scale. -/
def applyResponseMeasures (models : ResponseModels) (scalers : ResponseScalers)
    (cfg : MDPConfig) (feats : Fin 7 → ℚ) : List ℚ × List ℚ × ℚ :=
  let initial_cw := cfg.initial_contact_weights
  let new_cw := [initial_cw 0 + models.home (scalers.home feats) * (1/10),
                 initial_cw 1 - models.school (scalers.school feats) * (3/10),
                 initial_cw 2 - models.work (scalers.work feats) * (3/10),
                 initial_cw 3 - models.public (scalers.public feats) * (2/10)]
  let initial_alphas := cfg.initial_alphas
  let measure := min (max (models.alphaM (scalers.alphaM feats)) 1) 100
  let new_alphas := [initial_alphas 0 * (1 - measure * (1/10000)),
                     initial_alphas 1 * (1 - measure * (1/10000)),
                     initial_alphas 2 * (1 - measure * (4/1000))]
  let new_flow_scale := cfg.initial_flow_scale - (1/10) * models.movement (scalers.movement feats)
  (new_cw, new_alphas, new_flow_scale)

/-- `MarkovDecisionProcess._map_infection_to_response_measures`
(MDP.py lines 124–204). -/
def map_infection_to_response_measures (models : ResponseModels)
    (scalers : ResponseScalers) (cfg : MDPConfig) (population_total : ℚ)
    (state : RState nr na) (path : List (RState nr na))
    (previous_cw previous_alphas : List ℚ) (previous_flow_scale : ℚ) :
    List ℚ × List ℚ × ℚ :=
  if 3 < path.length then
    applyResponseMeasures models scalers cfg (features state path population_total)
  else (previous_cw, previous_alphas, previous_flow_scale)

/-- A row of the historic FHI data frame: the calendar date (as a day
number) and the `vaccine_supply_new` column. -/
structure VSupplyRow where
  date : ℤ
  vaccine_supply_new : ℚ
deriving DecidableEq, Repr

/-- The value bound to the `'vaccine_supply'` key: either the fallback
zero matrix of shape `S.shape` or the scalar integer count. -/
inductive VaccineSupply (nr na : ℕ) where
  | matrix (M : Mat nr na)
  | scalar (z : ℤ)

/-- Python `int(...)` applied to a real value: truncation toward zero. -/
def pythonInt (q : ℚ) : ℤ := if 0 ≤ q then ⌊q⌋ else ⌈q⌉

/-- The `'vaccine_supply'` computation of
`MarkovDecisionProcess.get_exogenous_information` (MDP.py lines 90–97):
filter the historic rows to dates strictly after `today` and at most
`decision_period // periods_per_day` days later; if no rows fall in the
window return `np.zeros(S.shape)`, else
`int(week_data['vaccine_supply_new'].sum()/2)`. -/
def week_data (historic_data : List VSupplyRow) (today : ℤ)
    (decision_period periods_per_day : ℕ) : List VSupplyRow :=
  historic_data.filter fun row =>
    decide (today < row.date)
      && decide (row.date ≤ today + ((decision_period / periods_per_day : ℕ) : ℤ))

/-- The branch on `week_data.empty` of MDP.py lines 94–97: the fallback
zero matrix of shape `S.shape`, or `int(sum/2)` as a scalar. -/
def exogenous_vaccine_supply (nr na : ℕ) (historic_data : List VSupplyRow)
    (today : ℤ) (decision_period periods_per_day : ℕ) : VaccineSupply nr na :=
  if (week_data historic_data today decision_period periods_per_day).isEmpty
  then VaccineSupply.matrix (fun _ _ => 0)
  else VaccineSupply.scalar (pythonInt
    (((week_data historic_data today decision_period periods_per_day).map
      fun row => row.vaccine_supply_new).sum / 2))

/-- One-region, one-age-group parameter set with flow, stochastics and
transmission switched off, used to evaluate the embedding on concrete
inputs. -/
def P1 : SEAIRParams 1 1 :=
  { beta := 0, r_e := 0, r_a := 0, p := 1/2, delta := fun _ => 0, epsilon := 1/2
    sigma := 1/4, alphaR := 1/4, omega := 1/4, gamma := 1/4
    periods_per_day := 4, include_flow := false, stochastic := false
    visitors := fun _ _ => 1, commuters := fun _ _ => 0, age_flow_scaling := fun _ => 1
    contact_matrices := fun _ _ _ => 1
    poisContact := fun _ M => M, poisCommuter := fun _ M => M }

/-- Concrete exogenous information for the evaluations. -/
def info1 : ExogenousInfo :=
  { alphas := fun _ => 1, contact_weights := fun _ => 1/4, flow_scale := 1 }

/-- Concrete initial state: no susceptibles left (S = 0), one recovered
individual, 5 vaccine doses available. -/
def st1 : SimState 1 1 :=
  { S := fun _ _ => 0, E1 := fun _ _ => 0, E2 := fun _ _ => 0, A := fun _ _ => 0
    I := fun _ _ => 0, R := fun _ _ => 1, D := fun _ _ => 0, V := fun _ _ => 0
    vaccines_available := 5, weekday := 0
    new_infected_hist := [], new_deaths_hist := [], newE1_hist := [] }

/-- Variant of `P1` with `alpha = 1/2` (used to expose E2 → I flow). -/
def P2 : SEAIRParams 1 1 := { P1 with alphaR := 1/2 }

/-- Variant of `st1` with 4 presymptomatic-infectious individuals. -/
def st2 : SimState 1 1 := { st1 with E2 := fun _ _ => 4 }

/-- Variant of `st1` with 10 vaccine doses available. -/
def st3 : SimState 1 1 := { st1 with vaccines_available := 10 }

/-- Concrete decision-process state with 8 of 10 individuals recovered. -/
def mst1 : MState 1 1 :=
  { R := fun _ _ => 8, E1 := fun _ _ => 0, E2 := fun _ _ => 0
    A := fun _ _ => 0, I := fun _ _ => 0 }

/-- Trivial concrete regression surrogates. -/
def models1 : ResponseModels :=
  { home := fun _ => 0, school := fun _ => 0, work := fun _ => 0
    public := fun _ => 0, alphaM := fun _ => 0, movement := fun _ => 0 }

/-- Trivial concrete feature scalers. -/
def scalers1 : ResponseScalers :=
  { home := fun v => v, school := fun v => v, work := fun v => v
    public := fun v => v, alphaM := fun v => v, movement := fun v => v }

/-- Concrete mapper configuration. -/
def cfg1 : MDPConfig :=
  { initial_contact_weights := fun _ => 1/4, initial_alphas := fun _ => 1
    initial_flow_scale := 1 }

/-- Concrete historic supply table: rows at days 3, 5 and 20. -/
def historic1 : List VSupplyRow := [⟨3, 10⟩, ⟨5, 4⟩, ⟨20, 6⟩]

/-- Variant of `P1` with commuter flow enabled. -/
def P3 : SEAIRParams 1 1 := { P1 with include_flow := true }

/-- Concrete two-element path of decision-process states. -/
def pathC : List (RState 1 1) := [default, default]

/- ======================================================================
   Theorems
   ====================================================================== -/

/-- The vaccination step conserves the cell total: it moves
`epsilon * new_V` from S to R. -/
lemma vaccinateCell_total (c : Cell) (d : ℚ) (dp : ℕ) (epsilon : ℚ) :
    cellTotal (vaccinateCell c d dp epsilon).1 = cellTotal c := by
  simp only [vaccinateCell, cellTotal]
  ring

/-- The flow step conserves the cell total: every outflow is subtracted
exactly where it is added. -/
lemma flowCell_total (c : Cell) (cases sigma alphaR omega gamma p delta : ℚ) :
    cellTotal (flowCell c cases sigma alphaR omega gamma p delta).next = cellTotal c := by
  simp only [flowCell, cellTotal]
  ring

/-- One sub-period conserves the cell total. -/
lemma subPeriodCell_total (c : Cell) (d : ℚ) (dp : ℕ)
    (epsilon cases sigma alphaR omega gamma p delta : ℚ) :
    cellTotal (subPeriodCell c d dp epsilon cases sigma alphaR omega gamma p delta).next
      = cellTotal c := by
  unfold subPeriodCell
  rw [flowCell_total, vaccinateCell_total]

/-- The vaccination step keeps all compartments non-negative when the
decision entry is non-negative and the efficacy lies in [0,1]. -/
lemma vaccinateCell_nonneg (c : Cell) (d : ℚ) (dp : ℕ) (epsilon : ℚ)
    (hc : cellNonneg c) (hd : 0 ≤ d) (he0 : 0 ≤ epsilon) (he1 : epsilon ≤ 1) :
    cellNonneg (vaccinateCell c d dp epsilon).1 := by
  obtain ⟨hS, hE1, hE2, hA, hI, hR, hD, hV⟩ := hc
  have hq : 0 ≤ d / (dp : ℚ) := div_nonneg hd (Nat.cast_nonneg dp)
  have hv0 : 0 ≤ min c.S (d / (dp : ℚ)) := le_min hS hq
  have hvS : min c.S (d / (dp : ℚ)) ≤ c.S := min_le_left _ _
  have hev : epsilon * min c.S (d / (dp : ℚ)) ≤ min c.S (d / (dp : ℚ)) :=
    mul_le_of_le_one_left hv0 he1
  refine ⟨?_, hE1, hE2, hA, hI, ?_, hD, ?_⟩
  · simp only [vaccinateCell]
    linarith
  · simp only [vaccinateCell]
    have := mul_nonneg he0 hv0
    linarith
  · simp only [vaccinateCell]
    linarith

/-- The flow step keeps all compartments non-negative when the exposure
draw is non-negative and all the rate parameters lie in [0,1]. -/
lemma flowCell_nonneg (c : Cell) (cases sigma alphaR omega gamma p delta : ℚ)
    (hc : cellNonneg c) (hcases : 0 ≤ cases)
    (hs0 : 0 ≤ sigma) (hs1 : sigma ≤ 1)
    (ha0 : 0 ≤ alphaR) (ha1 : alphaR ≤ 1)
    (hw0 : 0 ≤ omega) (hw1 : omega ≤ 1)
    (hg0 : 0 ≤ gamma) (hg1 : gamma ≤ 1)
    (hp0 : 0 ≤ p) (hp1 : p ≤ 1)
    (hdel0 : 0 ≤ delta) (hdel1 : delta ≤ 1) :
    cellNonneg (flowCell c cases sigma alphaR omega gamma p delta).next := by
  obtain ⟨hS, hE1, hE2, hA, hI, hR, hD, hV⟩ := hc
  have hm0 : 0 ≤ min cases c.S := le_min hcases hS
  have hmS : min cases c.S ≤ c.S := min_le_right _ _
  refine ⟨?_, ?_, ?_, ?_, ?_, ?_, ?_, ?_⟩ <;> simp only [flowCell]
  · linarith
  · have h1 : c.E1 + min cases c.S - c.E1 * sigma * p - c.E1 * sigma * (1 - p)
        = c.E1 * (1 - sigma) + min cases c.S := by ring
    rw [h1]
    have := mul_nonneg hE1 (by linarith : (0:ℚ) ≤ 1 - sigma)
    linarith
  · have h1 : c.E2 + c.E1 * sigma * p - c.E2 * alphaR
        = c.E2 * (1 - alphaR) + c.E1 * sigma * p := by ring
    rw [h1]
    have h2 := mul_nonneg hE2 (by linarith : (0:ℚ) ≤ 1 - alphaR)
    have h3 := mul_nonneg (mul_nonneg hE1 hs0) hp0
    linarith
  · have h1 : c.A + c.E1 * sigma * (1 - p) - c.A * gamma
        = c.A * (1 - gamma) + c.E1 * sigma * (1 - p) := by ring
    rw [h1]
    have h2 := mul_nonneg hA (by linarith : (0:ℚ) ≤ 1 - gamma)
    have h3 := mul_nonneg (mul_nonneg hE1 hs0) (by linarith : (0:ℚ) ≤ 1 - p)
    linarith
  · have h1 : c.I + c.E2 * alphaR - c.I * (1 - delta) * omega - c.I * delta * omega
        = c.I * (1 - omega) + c.E2 * alphaR := by ring
    rw [h1]
    have h2 := mul_nonneg hI (by linarith : (0:ℚ) ≤ 1 - omega)
    have h3 := mul_nonneg hE2 ha0
    linarith
  · have h2 := mul_nonneg (mul_nonneg hI (by linarith : (0:ℚ) ≤ 1 - delta)) hw0
    have h3 := mul_nonneg hA hg0
    linarith
  · have h2 := mul_nonneg (mul_nonneg hI hdel0) hw0
    linarith
  · exact hV

/-- One full sub-period keeps all compartments non-negative under the
stated parameter bounds. -/
lemma subPeriodCell_nonneg (c : Cell) (d : ℚ) (dp : ℕ)
    (epsilon cases sigma alphaR omega gamma p delta : ℚ)
    (hc : cellNonneg c) (hd : 0 ≤ d) (hcases : 0 ≤ cases)
    (he0 : 0 ≤ epsilon) (he1 : epsilon ≤ 1)
    (hs0 : 0 ≤ sigma) (hs1 : sigma ≤ 1)
    (ha0 : 0 ≤ alphaR) (ha1 : alphaR ≤ 1)
    (hw0 : 0 ≤ omega) (hw1 : omega ≤ 1)
    (hg0 : 0 ≤ gamma) (hg1 : gamma ≤ 1)
    (hp0 : 0 ≤ p) (hp1 : p ≤ 1)
    (hdel0 : 0 ≤ delta) (hdel1 : delta ≤ 1) :
    cellNonneg (subPeriodCell c d dp epsilon cases sigma alphaR omega gamma p delta).next :=
  flowCell_nonneg _ _ _ _ _ _ _ _
    (vaccinateCell_nonneg c d dp epsilon hc hd he0 he1) hcases
    hs0 hs1 ha0 ha1 hw0 hw1 hg0 hg1 hp0 hp1 hdel0 hdel1

/-- The `new_I` transition value of the flow step is non-negative whenever
E2 and the alpha rate are. -/
lemma flowCell_newI_nonneg (c : Cell) (cases sigma alphaR omega gamma p delta : ℚ)
    (hE2 : 0 ≤ c.E2) (ha0 : 0 ≤ alphaR) :
    0 ≤ (flowCell c cases sigma alphaR omega gamma p delta).newI :=
  mul_nonneg hE2 ha0

lemma clip01_nonneg (x : ℚ) : 0 ≤ clip01 x := le_max_left 0 _

lemma clip01_le_one (x : ℚ) : clip01 x ≤ 1 :=
  max_le (by norm_num) (min_le_left 1 x)

/-- The cell view of one loop iteration is exactly the per-cell
sub-period update. -/
lemma stCell_subPeriod (P : SEAIRParams nr na) (info : ExogenousInfo)
    (decision : Mat nr na) (dp i : ℕ) (st : SimState nr na) (r : Fin nr) (a : Fin na) :
    stCell (subPeriod P info decision dp i st) r a = (subPeriodAt P info decision dp i st r a).next :=
  rfl

/-- Generic loop invariant for `List.foldl`. -/
lemma foldl_inv {σ α : Type*} (Q : σ → Prop) (f : σ → α → σ)
    (hf : ∀ s x, Q s → Q (f s x)) :
    ∀ (l : List α) (s : σ), Q s → Q (l.foldl f s) := by
  intro l
  induction l with
  | nil => intro s hs; exact hs
  | cons x xs ih => intro s hs; exact ih _ (hf s x hs)

/-- Conservation through the whole simulate loop: every cell total is
unchanged. -/
lemma simulate_cellTotal (P : SEAIRParams nr na) (info : ExogenousInfo)
    (decision : Mat nr na) (dp : ℕ) (st : SimState nr na) (r : Fin nr) (a : Fin na) :
    cellTotal (stCell (simulate P info decision dp st) r a) = cellTotal (stCell st r a) := by
  have h := foldl_inv
    (fun s : SimState nr na => ∀ r a, cellTotal (stCell s r a) = cellTotal (stCell st r a))
    (fun s i => subPeriod P info decision dp i s)
    (fun s i hs r a => by
      rw [stCell_subPeriod]
      unfold subPeriodAt
      rw [subPeriodCell_total]
      exact hs r a)
    (List.range dp) st (fun _ _ => rfl)
  exact h r a

lemma vacCellAt_nonneg {P : SEAIRParams nr na} {info : ExogenousInfo}
    {decision : Mat nr na} {dp : ℕ} {st : SimState nr na}
    (hP : ParamsNonneg P info) (hst : stNonneg st) (hdec : MatNonneg decision)
    (r : Fin nr) (a : Fin na) :
    cellNonneg (vacCellAt P decision dp st r a).1 :=
  vaccinateCell_nonneg _ _ _ _ (hst r a) (hdec r a) hP.heps0 hP.heps1

lemma liveN_nonneg {P : SEAIRParams nr na} {info : ExogenousInfo}
    {decision : Mat nr na} {dp : ℕ} {st : SimState nr na}
    (hP : ParamsNonneg P info) (hst : stNonneg st) (hdec : MatNonneg decision)
    (r : Fin nr) (a : Fin na) :
    0 ≤ liveN P decision dp st r a := by
  obtain ⟨hS, _, _, _, _, hR, _, _⟩ := vacCellAt_nonneg hP hst hdec r a
  obtain ⟨_, hE1, hE2, hA, hI, _, _, _⟩ := hst r a
  unfold liveN
  simp only [stCell] at hE1 hE2 hA hI
  linarith

lemma commuter_cases_nonneg {P : SEAIRParams nr na} {info : ExogenousInfo}
    {decision : Mat nr na} {dp i : ℕ} {st : SimState nr na}
    (hP : ParamsNonneg P info) (hst : stNonneg st) (hdec : MatNonneg decision) :
    MatNonneg (commuter_cases P info decision dp i st) := by
  unfold commuter_cases
  split
  · have hraw : ∀ r a, (0:ℚ) ≤ (vacCellAt P decision dp st r a).1.S / liveN P decision dp st r a
        * ∑ j, P.commuters r j * info.flow_scale * P.age_flow_scaling a
            * clip01 (P.beta * (P.r_e * st.E2 j a + P.r_a * st.A j a + st.I j a) / P.visitors j a) := by
      intro r a
      refine mul_nonneg (div_nonneg (vacCellAt_nonneg hP hst hdec r a).1 (liveN_nonneg hP hst hdec r a)) ?_
      refine Finset.sum_nonneg fun j _ => ?_
      exact mul_nonneg (mul_nonneg (mul_nonneg (hP.hcom r j) hP.hfs) (hP.hafs a)) (clip01_nonneg _)
    split
    · exact fun r a => hP.hpoisK i _ hraw r a
    · exact hraw
  · intro r a
    simp

lemma contact_cases_nonneg {P : SEAIRParams nr na} {info : ExogenousInfo}
    {decision : Mat nr na} {dp i : ℕ} {st : SimState nr na}
    (hP : ParamsNonneg P info) (hst : stNonneg st) (hdec : MatNonneg decision) :
    MatNonneg (contact_cases P info decision dp i st) := by
  unfold contact_cases
  have hraw : ∀ r a, (0:ℚ) ≤ (vacCellAt P decision dp st r a).1.S / liveN P decision dp st r a
      * ∑ b, clip01 (P.beta * (info.alphas 0 * P.r_e * st.E2 r b
          + info.alphas 1 * P.r_a * st.A r b + info.alphas 2 * st.I r b))
        * generate_weighted_contact_matrix P.contact_matrices info.contact_weights b a := by
    intro r a
    refine mul_nonneg (div_nonneg (vacCellAt_nonneg hP hst hdec r a).1 (liveN_nonneg hP hst hdec r a)) ?_
    refine Finset.sum_nonneg fun b _ => ?_
    refine mul_nonneg (clip01_nonneg _) ?_
    unfold generate_weighted_contact_matrix
    exact Finset.sum_nonneg fun k _ => mul_nonneg (hP.hcw k) (hP.hcm k b a)
  split
  · exact fun r a => hP.hpoisC i _ hraw r a
  · exact hraw

/-- The exposure draw fed to the flow step is non-negative. -/
lemma casesAt_nonneg {P : SEAIRParams nr na} {info : ExogenousInfo}
    {decision : Mat nr na} {dp i : ℕ} {st : SimState nr na}
    (hP : ParamsNonneg P info) (hst : stNonneg st) (hdec : MatNonneg decision)
    (r : Fin nr) (a : Fin na) :
    0 ≤ contact_cases P info decision dp i st r a + commuter_cases P info decision dp i st r a :=
  add_nonneg (contact_cases_nonneg hP hst hdec r a) (commuter_cases_nonneg hP hst hdec r a)

/-- One loop iteration preserves non-negativity of all compartments. -/
lemma subPeriod_stNonneg {P : SEAIRParams nr na} {info : ExogenousInfo}
    {decision : Mat nr na} {dp i : ℕ} {st : SimState nr na}
    (hP : ParamsNonneg P info) (hdec : MatNonneg decision) (hst : stNonneg st) :
    stNonneg (subPeriod P info decision dp i st) := by
  intro r a
  rw [stCell_subPeriod]
  unfold subPeriodAt
  exact subPeriodCell_nonneg _ _ _ _ _ _ _ _ _ _ _
    (hst r a) (hdec r a) (casesAt_nonneg hP hst hdec r a)
    hP.heps0 hP.heps1 hP.hsig0 hP.hsig1 hP.halp0 hP.halp1
    hP.hom0 hP.hom1 hP.hgam0 hP.hgam1 hP.hp0 hP.hp1
    (hP.hdelta a).1 (hP.hdelta a).2

/-- The `new_I` recorded in a sub-period is `E2 * alpha` at the cell. -/
lemma subPeriodAt_newI (P : SEAIRParams nr na) (info : ExogenousInfo)
    (decision : Mat nr na) (dp i : ℕ) (st : SimState nr na) (r : Fin nr) (a : Fin na) :
    (subPeriodAt P info decision dp i st r a).newI = st.E2 r a * P.alphaR :=
  rfl

/-- Compartment non-negativity propagates through the whole simulate loop
together with non-negativity of every recorded `new_I` matrix. -/
lemma simulate_nonneg_inv {P : SEAIRParams nr na} {info : ExogenousInfo}
    {decision : Mat nr na} {dp : ℕ} {st : SimState nr na}
    (hP : ParamsNonneg P info) (hdec : MatNonneg decision)
    (hst : stNonneg st) (hhist : ∀ M ∈ st.new_infected_hist, MatNonneg M) :
    stNonneg (simulate P info decision dp st)
      ∧ ∀ M ∈ (simulate P info decision dp st).new_infected_hist, MatNonneg M := by
  have h := foldl_inv
    (fun s : SimState nr na => stNonneg s ∧ ∀ M ∈ s.new_infected_hist, MatNonneg M)
    (fun s i => subPeriod P info decision dp i s)
    (fun s i hs => by
      refine ⟨subPeriod_stNonneg hP hdec hs.1, ?_⟩
      intro M hM
      simp only [subPeriod, List.mem_append, List.mem_singleton] at hM
      rcases hM with hM | hM
      · exact hs.2 M hM
      · subst hM
        intro r a
        show 0 ≤ (subPeriodAt P info decision dp i s r a).newI
        rw [subPeriodAt_newI]
        exact mul_nonneg (hs.1 r a).2.2.1 hP.halp0)
    (List.range dp) st ⟨hst, hhist⟩
  exact h

/-- The recorded history grows by exactly one matrix per sub-period. -/
lemma simulate_hist_length (P : SEAIRParams nr na) (info : ExogenousInfo)
    (decision : Mat nr na) (dp : ℕ) (st : SimState nr na) :
    (simulate P info decision dp st).new_infected_hist.length
      = st.new_infected_hist.length + dp := by
  unfold simulate
  have h : ∀ (l : List ℕ) (s : SimState nr na),
      ((l.foldl (fun s i => subPeriod P info decision dp i s) s).new_infected_hist).length
        = s.new_infected_hist.length + l.length := by
    intro l
    induction l with
    | nil => intro s; simp
    | cons x xs ih =>
      intro s
      rw [List.foldl_cons, ih]
      simp [subPeriod]
      omega
  rw [h, List.length_range]

/-- Each cell's contribution to `unused_V` is `min(S, d/dp) - d/dp ≤ 0`:
what the code adds to `vaccines_available` is never positive. -/
lemma vacCellAt_unused_nonpos (P : SEAIRParams nr na) (decision : Mat nr na)
    (dp : ℕ) (st : SimState nr na) (r : Fin nr) (a : Fin na) :
    (vacCellAt P decision dp st r a).2 ≤ 0 := by
  simp only [vacCellAt, vaccinateCell]
  exact sub_nonpos.mpr (min_le_right _ _)

/-- `unused_V` as summed by the code is non-positive. -/
lemma unusedVaccines_nonpos (P : SEAIRParams nr na) (decision : Mat nr na)
    (dp : ℕ) (st : SimState nr na) :
    unusedVaccines P decision dp st ≤ 0 :=
  Finset.sum_nonpos fun r _ => Finset.sum_nonpos fun a _ => vacCellAt_unused_nonpos P decision dp st r a

/-- C1: for every call to `SEAIR.simulate` with non-negative compartments
and a non-negative decision, the per-cell sum S+E1+E2+A+I+R+D is
unchanged by every sub-period update (in exact arithmetic): vaccination
moves `efficacy * administered` from S to R, and the compartment-flow
arithmetic subtracts each outflow exactly where it is added, so the total
per region/age-group after `simulate` equals the initial local
population. -/
theorem seair_population_conservation (P : SEAIRParams nr na) (info : ExogenousInfo)
    (decision : Mat nr na) (dp : ℕ) (st : SimState nr na)
    (_hst : stNonneg st) (_hdec : MatNonneg decision) :
    (∀ i r a, cellTotal (stCell (subPeriod P info decision dp i st) r a)
        = cellTotal (stCell st r a))
    ∧ ∀ r a, cellTotal (stCell (simulate P info decision dp st) r a)
        = cellTotal (stCell st r a) := by
  constructor
  · intro i r a
    rw [stCell_subPeriod]
    unfold subPeriodAt
    rw [subPeriodCell_total]
  · intro r a
    exact simulate_cellTotal P info decision dp st r a

/-- Witness for C1 at a concrete input. -/
theorem seair_population_conservation_witness :
    stNonneg st1 ∧ MatNonneg ((fun _ _ => (2:ℚ)) : Mat 1 1)
    ∧ ∀ r a, cellTotal (stCell (simulate P1 info1 (fun _ _ => (2:ℚ)) 2 st1) r a)
        = cellTotal (stCell st1 r a) :=
  ⟨by decide, by decide,
    (seair_population_conservation P1 info1 (fun _ _ => (2:ℚ)) 2 st1
      (by decide) (by decide)).2⟩

/-- C2 (code-bug evidence): at the failing input — a single cell with
S = 0, total decision 2 spread over 2 sub-periods, 5 doses available —
the code ends with `vaccines_available = 3`: it *subtracts* the 2 unused
doses instead of crediting them back, because the quantity it adds,
`np.sum(new_V - decision/decision_period)`, is non-positive in every
sub-period. -/
theorem seair_unused_doses_bug :
    (simulate P1 info1 (fun _ _ => (2:ℚ)) 2 st1).vaccines_available = 3
    ∧ ∀ (P : SEAIRParams 1 1) (decision : Mat 1 1) (dp : ℕ) (st : SimState 1 1),
        unusedVaccines P decision dp st ≤ 0 := by
  constructor
  · have h : List.range 2 = [0, 1] := rfl
    simp only [simulate, h, List.foldl_cons, List.foldl_nil]
    norm_num [subPeriod, unusedVaccines, vacCellAt, vaccinateCell, stCell, subPeriodAt,
      subPeriodCell, flowCell, contact_cases, commuter_cases, working_hours, liveN,
      generate_weighted_contact_matrix, clip01, P1, info1, st1, Fin.sum_univ_one,
      min_def, max_def]
  · intro P decision dp st
    exact unusedVaccines_nonpos P decision dp st

/-- The concrete parameter set `P1` satisfies all range conditions. -/
lemma paramsNonneg_P1 : ParamsNonneg P1 info1 := by
  constructor <;> first
    | (intro i M h r a; exact h r a)
    | (intro a; constructor <;> norm_num [P1, info1])
    | (intros; norm_num [P1, info1])

/-- C3 counterexample: at a concrete input (one cell, E2 = 4,
`alpha = 1/2`, no exposures, one sub-period) the returned
`total_new_infected` is 2, while the accumulated `new_E1` transitions
total 0 — the returned total does not equal the sum of the new E1
transitions. -/
theorem seair_new_infected_counterexample :
    total_new_infected (simulate P2 info1 (fun _ _ => (0:ℚ)) 1 st2) 0 0 = 2
    ∧ specTotalNewE1 (simulate P2 info1 (fun _ _ => (0:ℚ)) 1 st2) 0 0 = 0
    ∧ total_new_infected (simulate P2 info1 (fun _ _ => (0:ℚ)) 1 st2) 0 0
        ≠ specTotalNewE1 (simulate P2 info1 (fun _ _ => (0:ℚ)) 1 st2) 0 0 := by
  have h : List.range 1 = [0] := rfl
  refine ⟨?_, ?_, ?_⟩ <;>
    simp only [simulate, h, List.foldl_cons, List.foldl_nil] <;>
    norm_num [total_new_infected, specTotalNewE1, subPeriod, subPeriodAt, subPeriodCell,
      flowCell, vaccinateCell, stCell, vacCellAt, contact_cases, commuter_cases,
      working_hours, liveN, generate_weighted_contact_matrix, clip01,
      P2, P1, info1, st2, st1, Fin.sum_univ_one, min_def, max_def]

/-- C3 (amended): the `new_infected` total returned by `SEAIR.simulate`
is a non-negative vector that equals the sum across sub-periods of the
recorded per-sub-period `new_I` transitions (one recorded matrix per
sub-period, summed rather than overwritten). -/
theorem seair_new_infected_total (P : SEAIRParams nr na) (info : ExogenousInfo)
    (decision : Mat nr na) (dp : ℕ) (st : SimState nr na)
    (hP : ParamsNonneg P info) (hdec : MatNonneg decision) (hst : stNonneg st)
    (hhist : st.new_infected_hist = []) :
    MatNonneg (total_new_infected (simulate P info decision dp st))
    ∧ (simulate P info decision dp st).new_infected_hist.length = dp
    ∧ ∀ r a, total_new_infected (simulate P info decision dp st) r a
        = (((simulate P info decision dp st).new_infected_hist).map (fun M => M r a)).sum := by
  have hinv := @simulate_nonneg_inv nr na P info decision dp st hP hdec hst
    (by rw [hhist]; intro M hM; simp at hM)
  refine ⟨?_, ?_, fun r a => rfl⟩
  · intro r a
    unfold total_new_infected
    apply List.sum_nonneg
    intro x hx
    rw [List.mem_map] at hx
    obtain ⟨M, hM, rfl⟩ := hx
    exact hinv.2 M hM r a
  · rw [simulate_hist_length, hhist]
    simp

/-- Witness for C3 (amended) at a concrete input. -/
theorem seair_new_infected_total_witness :
    ParamsNonneg P1 info1 ∧ MatNonneg ((fun _ _ => (0:ℚ)) : Mat 1 1) ∧ stNonneg st1
    ∧ st1.new_infected_hist = []
    ∧ MatNonneg (total_new_infected (simulate P1 info1 (fun _ _ => (0:ℚ)) 2 st1)) :=
  ⟨paramsNonneg_P1, by decide, by decide, rfl,
    (seair_new_infected_total P1 info1 (fun _ _ => (0:ℚ)) 2 st1
      paramsNonneg_P1 (by decide) (by decide) rfl).1⟩

/-- C4 counterexample: an input satisfying all the hypotheses the claim
lists — non-negative compartments, non-negative exposure draw, efficacy
1/2 ∈ [0,1], fatality rate 0 ∈ [0,1], rate constants sigma = alpha =
omega = 1 and gamma = 0, all ≤ 1 — but with
`proportion_symptomatic p = 2`, after which compartment A equals −1 < 0:
the claim's hypothesis list does not force non-negativity. -/
theorem seair_subperiod_nonneg_counterexample :
    cellNonneg ⟨0, 1, 0, 0, 0, 0, 0, 0⟩
    ∧ ((0:ℚ) ≤ 0 ∧ (0:ℚ) ≤ 1/2 ∧ (1/2:ℚ) ≤ 1 ∧ (0:ℚ) ≤ 0 ∧ (0:ℚ) ≤ 1
        ∧ (1:ℚ) ≤ 1 ∧ (1:ℚ) ≤ 1 ∧ (1:ℚ) ≤ 1 ∧ (0:ℚ) ≤ 1)
    ∧ (subPeriodCell ⟨0, 1, 0, 0, 0, 0, 0, 0⟩ 0 1 (1/2) 0 1 1 1 0 2 0).next.A = -1
    ∧ (subPeriodCell ⟨0, 1, 0, 0, 0, 0, 0, 0⟩ 0 1 (1/2) 0 1 1 1 0 2 0).next.A < 0 := by
  refine ⟨by decide, by norm_num, ?_, ?_⟩ <;>
    norm_num [subPeriodCell, flowCell, vaccinateCell, min_def]

/-- C4 (amended): for every sub-period update of `SEAIR.simulate`, with
non-negative starting compartments, a non-negative decision entry, a
non-negative exposure draw, efficacy in [0,1], fatality rate in [0,1],
the rate constants sigma, alpha, omega, gamma each in [0,1] *and the
symptomatic proportion p in [0,1]*, every compartment
(S, E1, E2, A, I, R, D, V) remains ≥ 0 after the update; in particular
`new_E1` is clipped to at most S, so S never goes negative. -/
theorem seair_subperiod_nonneg (c : Cell) (d : ℚ) (dp : ℕ)
    (epsilon cases sigma alphaR omega gamma p delta : ℚ)
    (hc : cellNonneg c) (hd : 0 ≤ d) (hcases : 0 ≤ cases)
    (he0 : 0 ≤ epsilon) (he1 : epsilon ≤ 1)
    (hs0 : 0 ≤ sigma) (hs1 : sigma ≤ 1)
    (ha0 : 0 ≤ alphaR) (ha1 : alphaR ≤ 1)
    (hw0 : 0 ≤ omega) (hw1 : omega ≤ 1)
    (hg0 : 0 ≤ gamma) (hg1 : gamma ≤ 1)
    (hp0 : 0 ≤ p) (hp1 : p ≤ 1)
    (hdel0 : 0 ≤ delta) (hdel1 : delta ≤ 1) :
    cellNonneg (subPeriodCell c d dp epsilon cases sigma alphaR omega gamma p delta).next :=
  subPeriodCell_nonneg c d dp epsilon cases sigma alphaR omega gamma p delta
    hc hd hcases he0 he1 hs0 hs1 ha0 ha1 hw0 hw1 hg0 hg1 hp0 hp1 hdel0 hdel1

/-- Witness for C4 (amended) at a concrete input. -/
theorem seair_subperiod_nonneg_witness :
    cellNonneg ⟨10, 1, 2, 3, 4, 5, 6, 0⟩
    ∧ ((0:ℚ) ≤ 2 ∧ (0:ℚ) ≤ 3 ∧ (0:ℚ) ≤ 1/2 ∧ (1/2:ℚ) ≤ 1
        ∧ (0:ℚ) ≤ 1/4 ∧ (1/4:ℚ) ≤ 1 ∧ (0:ℚ) ≤ 1/2 ∧ (1/2:ℚ) ≤ 1
        ∧ (0:ℚ) ≤ 1/10 ∧ (1/10:ℚ) ≤ 1)
    ∧ cellNonneg (subPeriodCell ⟨10, 1, 2, 3, 4, 5, 6, 0⟩ 2 2 (1/2) 3
        (1/4) (1/4) (1/4) (1/4) (1/2) (1/10)).next :=
  ⟨by decide, by norm_num,
    seair_subperiod_nonneg ⟨10, 1, 2, 3, 4, 5, 6, 0⟩ 2 2 (1/2) 3
      (1/4) (1/4) (1/4) (1/4) (1/2) (1/10)
      (by decide) (by norm_num) (by norm_num) (by norm_num) (by norm_num)
      (by norm_num) (by norm_num) (by norm_num) (by norm_num) (by norm_num)
      (by norm_num) (by norm_num) (by norm_num) (by norm_num) (by norm_num)
      (by norm_num) (by norm_num)⟩

/-- C5 counterexample: with S = 2, one administered dose and efficacy
1/2, the code adds the full administered dose to V (V becomes 1), not the
`(1 - efficacy)` fraction (which would give 1/2). -/
theorem seair_vaccinated_count_counterexample :
    (vaccinateCell ⟨2, 0, 0, 0, 0, 0, 0, 0⟩ 1 1 (1/2)).1.V = 1
    ∧ (vaccinateCell ⟨2, 0, 0, 0, 0, 0, 0, 0⟩ 1 1 (1/2)).1.V
        ≠ (0:ℚ) + (1 - 1/2) * min (2:ℚ) (1/1) := by
  constructor <;> norm_num [vaccinateCell, min_def]

/-- C5 (amended): in each vaccination step of `SEAIR.simulate`, exactly a
fraction `efficacy` of the administered doses
`new_V = min(S, decision/decision_period)` is moved from Susceptible to
Recovered, the *full* administered amount is added to the Vaccinated
count V, and no other compartment is altered by the vaccination step. -/
theorem seair_vaccination_step (P : SEAIRParams nr na) (decision : Mat nr na)
    (dp : ℕ) (st : SimState nr na) (r : Fin nr) (a : Fin na) :
    (vacCellAt P decision dp st r a).1.S
        = st.S r a - P.epsilon * min (st.S r a) (decision r a / (dp : ℚ))
    ∧ (vacCellAt P decision dp st r a).1.R
        = st.R r a + P.epsilon * min (st.S r a) (decision r a / (dp : ℚ))
    ∧ (vacCellAt P decision dp st r a).1.V
        = st.V r a + min (st.S r a) (decision r a / (dp : ℚ))
    ∧ (vacCellAt P decision dp st r a).1.E1 = st.E1 r a
    ∧ (vacCellAt P decision dp st r a).1.E2 = st.E2 r a
    ∧ (vacCellAt P decision dp st r a).1.A = st.A r a
    ∧ (vacCellAt P decision dp st r a).1.I = st.I r a
    ∧ (vacCellAt P decision dp st r a).1.D = st.D r a :=
  ⟨rfl, rfl, rfl, rfl, rfl, rfl, rfl, rfl⟩

/-- If a stop criterion holds at the start of an iteration, the loop
performs no further transition. -/
lemma mdpLoop_stop (trans : MState nr na → MState nr na) (pop : ℚ) (n : ℕ)
    (s : MState nr na) (path : List (MState nr na))
    (h : check_stop_criteria pop s = true) :
    mdpLoop trans pop n s path = path := by
  cases n with
  | zero => rfl
  | succ n => simp [mdpLoop, h]

/-- The path grows by exactly the number of transitions performed. -/
lemma mdpLoop_length (trans : MState nr na → MState nr na) (pop : ℚ) :
    ∀ (n : ℕ) (s : MState nr na) (path : List (MState nr na)),
      (mdpLoop trans pop n s path).length = path.length + mdpElapsed trans pop n s := by
  intro n
  induction n with
  | zero => intro s path; rfl
  | succ n ih =>
    intro s path
    by_cases h : check_stop_criteria pop s = true
    · simp [mdpLoop, mdpElapsed, h]
    · simp only [mdpLoop, mdpElapsed, h, if_false, Bool.false_eq_true, ite_false]
      rw [ih]
      simp
      omega

/-- C6: in `MarkovDecisionProcess.run`, if at the start of an iteration
the recovered population exceeds 0.7 of the total population or the total
of E1+E2+A+I is below the 0.1 threshold 
(`check_stop_criteria` is true), or the horizon is reached (no fuel
left), then no further state transition is performed — the loop halts
with the path unchanged — and in every case the final path length equals
the number of decision periods elapsed plus one for the initial state. -/
theorem mdp_stop_criteria_halt :
    (∀ (trans : MState nr na → MState nr na) (pop : ℚ) (n : ℕ)
        (s : MState nr na) (path : List (MState nr na)),
      check_stop_criteria pop s = true → mdpLoop trans pop n s path = path)
    ∧ (∀ (trans : MState nr na → MState nr na) (pop : ℚ)
        (s : MState nr na) (path : List (MState nr na)),
      mdpLoop trans pop 0 s path = path)
    ∧ ∀ (trans : MState nr na → MState nr na) (pop : ℚ) (t h : ℕ) (s : MState nr na),
      (mdpRun trans pop t h s).length = mdpElapsed trans pop (h - t) s + 1 := by
  refine ⟨fun trans pop n s path h => mdpLoop_stop trans pop n s path h,
    fun _ _ _ _ => rfl, fun trans pop t h s => ?_⟩
  unfold mdpRun
  rw [mdpLoop_length]
  simp [Nat.add_comm]

/-- Witness for C6 at a concrete input: 8 of 10 recovered triggers the
recovered-fraction stop, and the loop leaves the path untouched. -/
theorem mdp_stop_criteria_halt_witness :
    check_stop_criteria 10 mst1 = true
    ∧ mdpLoop (fun s => s) 10 5 mst1 [mst1] = [mst1] :=
  ⟨by norm_num [check_stop_criteria, matSum, mst1, Fin.sum_univ_one],
    (@mdp_stop_criteria_halt 1 1).1 (fun s => s) 10 5 mst1 [mst1]
      (by norm_num [check_stop_criteria, matSum, mst1, Fin.sum_univ_one])⟩

/-- `mdpLoop` only ever appends: any path already built is a prefix of
the final path. -/
lemma mdpLoop_append_only (trans : MState nr na → MState nr na) (pop : ℚ) :
    ∀ (n : ℕ) (s : MState nr na) (path : List (MState nr na)),
      ∃ rest, mdpLoop trans pop n s path = path ++ rest := by
  intro n
  induction n with
  | zero => intro s path; exact ⟨[], by simp [mdpLoop]⟩
  | succ n ih =>
    intro s path
    by_cases h : check_stop_criteria pop s = true
    · exact ⟨[], by simp [mdpLoop, h]⟩
    · obtain ⟨rest, hrest⟩ := ih (trans s) (path ++ [trans s])
      refine ⟨[trans s] ++ rest, ?_⟩
      simp only [mdpLoop, h, Bool.false_eq_true, ite_false]
      rw [hrest, List.append_assoc]

/-- C7 counterexample: `SEAIR.simulate` does *not* leave the given state
unchanged — at a concrete input (one cell, S = 0, decision 1, one
sub-period, 10 doses available) it changes `state.vaccines_available`
from 10 to 9. -/
theorem seair_state_mutation_counterexample :
    (simulate P1 info1 (fun _ _ => (1:ℚ)) 1 st3).vaccines_available = 9
    ∧ (simulate P1 info1 (fun _ _ => (1:ℚ)) 1 st3).vaccines_available
        ≠ st3.vaccines_available := by
  have h : List.range 1 = [0] := rfl
  constructor <;>
    simp only [simulate, h, List.foldl_cons, List.foldl_nil] <;>
    norm_num [subPeriod, unusedVaccines, vacCellAt, vaccinateCell, stCell,
      P1, info1, st3, st1, Fin.sum_univ_one, min_def]

/-- C7 (amended): the decision-process path is append-only — a path
already built is never truncated or replaced, only extended — and each
loop iteration of `SEAIR.simulate` mutates exactly one field of the
state it was given: `vaccines_available`, which it increments by
`np.sum(new_V - decision/decision_period)`; the compartments it reads
and the weekday are left unchanged (the updated compartments are
returned separately to build the fresh snapshot). -/
theorem mdp_path_append_only :
    (∀ (trans : MState nr na → MState nr na) (pop : ℚ) (n : ℕ)
        (s : MState nr na) (path : List (MState nr na)),
      ∃ rest, mdpLoop trans pop n s path = path ++ rest)
    ∧ (∀ (P : SEAIRParams nr na) (info : ExogenousInfo) (decision : Mat nr na)
        (dp i : ℕ) (st : SimState nr na),
      (subPeriod P info decision dp i st).vaccines_available
          = st.vaccines_available + unusedVaccines P decision dp st
        ∧ (subPeriod P info decision dp i st).weekday = st.weekday)
    ∧ ∀ (P : SEAIRParams nr na) (info : ExogenousInfo) (decision : Mat nr na)
        (dp : ℕ) (st : SimState nr na),
      (simulate P info decision dp st).weekday = st.weekday := by
  refine ⟨fun trans pop n s path => mdpLoop_append_only trans pop n s path,
    fun P info decision dp i st => ⟨rfl, rfl⟩, fun P info decision dp st => ?_⟩
  exact foldl_inv (fun s : SimState nr na => s.weekday = st.weekday)
    (fun s i => subPeriod P info decision dp i s)
    (fun s i hs => hs) (List.range dp) st rfl

/-- C8: with `include_flow` enabled, the commuting-transmission
contribution is non-zero only in working-hours sub-periods: whenever
`working_hours` is false — the timestep
`(weekday * periods_per_day + i) % decision_period` is not on a weekday
(`timestep < 5 * periods_per_day` fails) or its sub-period-of-day is not
the fixed mid-day index 2 — `commuter_cases` is exactly zero. -/
theorem seair_commuter_working_hours (P : SEAIRParams nr na) (info : ExogenousInfo)
    (decision : Mat nr na) (dp i : ℕ) (st : SimState nr na)
    (hflow : P.include_flow = true)
    (hwh : working_hours st.weekday P.periods_per_day i dp = false) :
    ∀ r a, commuter_cases P info decision dp i st r a = 0 := by
  intro r a
  unfold commuter_cases
  rw [hflow, hwh]
  simp

/-- Witness for C8 at a concrete input: sub-period 0 on a Monday has
sub-period-of-day 0 ≠ 2, so the commuter contribution is zero. -/
theorem seair_commuter_working_hours_witness :
    P3.include_flow = true
    ∧ working_hours st1.weekday P3.periods_per_day 0 28 = false
    ∧ ∀ r a, commuter_cases P3 info1 (fun _ _ => (0:ℚ)) 28 0 st1 r a = 0 :=
  ⟨rfl, by decide,
    seair_commuter_working_hours P3 info1 (fun _ _ => (0:ℚ)) 28 0 st1 rfl (by decide)⟩

/-- C9: the response-measure mapper returns the previous contact weights,
alphas and flow scale unchanged when the path holds at most 3 states
(fewer than 3 prior periods beyond the initial state); otherwise the new
values are computed deterministically from the 7-dimensional per-100k
feature vector of the path history, independently of the previous
values. -/
theorem mdp_response_measures_cold_start (models : ResponseModels)
    (scalers : ResponseScalers) (cfg : MDPConfig) (pop : ℚ)
    (state : RState nr na) (path : List (RState nr na))
    (previous_cw previous_alphas : List ℚ) (previous_flow_scale : ℚ) :
    (path.length ≤ 3 →
      map_infection_to_response_measures models scalers cfg pop state path
          previous_cw previous_alphas previous_flow_scale
        = (previous_cw, previous_alphas, previous_flow_scale))
    ∧ (3 < path.length →
      map_infection_to_response_measures models scalers cfg pop state path
          previous_cw previous_alphas previous_flow_scale
        = applyResponseMeasures models scalers cfg (features state path pop)) := by
  constructor
  · intro h
    unfold map_infection_to_response_measures
    rw [if_neg (not_lt.mpr h)]
  · intro h
    unfold map_infection_to_response_measures
    rw [if_pos h]

/-- Witness for C9 at a concrete input: a two-state path is a cold
start, so the inputs come back unchanged. -/
theorem mdp_response_measures_cold_start_witness :
    pathC.length ≤ 3
    ∧ map_infection_to_response_measures models1 scalers1 cfg1 10
        (default : RState 1 1) pathC [1] [1] 1 = ([1], [1], 1) :=
  ⟨by decide,
    (mdp_response_measures_cold_start models1 scalers1 cfg1 10
      (default : RState 1 1) pathC [1] [1] 1).1 (by decide)⟩

/-- C10: `get_exogenous_information` sets `'vaccine_supply'` to the
integer truncation of half the sum of the `'vaccine_supply_new'` values
whose dates lie strictly after the state's date and at most
`decision_period // periods_per_day` days later; when no historical rows
fall in that window, it returns a zero matrix of the shape of the S
compartment instead of a scalar. -/
theorem mdp_vaccine_supply_window (nr na : ℕ) (historic : List VSupplyRow)
    (today : ℤ) (dp ppd : ℕ) :
    ((historic.filter fun row =>
        decide (today < row.date ∧ row.date ≤ today + ((dp / ppd : ℕ) : ℤ))) = []
      → exogenous_vaccine_supply nr na historic today dp ppd
          = VaccineSupply.matrix (fun _ _ => 0))
    ∧ ((historic.filter fun row =>
        decide (today < row.date ∧ row.date ≤ today + ((dp / ppd : ℕ) : ℤ))) ≠ []
      → exogenous_vaccine_supply nr na historic today dp ppd
          = VaccineSupply.scalar (pythonInt
              (((historic.filter fun row =>
                  decide (today < row.date ∧ row.date ≤ today + ((dp / ppd : ℕ) : ℤ))).map
                fun row => row.vaccine_supply_new).sum / 2))) := by
  have hfilt : week_data historic today dp ppd
      = historic.filter fun row =>
        decide (today < row.date ∧ row.date ≤ today + ((dp / ppd : ℕ) : ℤ)) := by
    unfold week_data
    congr 1
    funext row
    by_cases h1 : today < row.date <;>
      by_cases h2 : row.date ≤ today + ((dp / ppd : ℕ) : ℤ) <;>
      simp [h1, h2]
  constructor
  · intro h
    unfold exogenous_vaccine_supply
    rw [hfilt, h]
    rfl
  · intro h
    unfold exogenous_vaccine_supply
    rw [hfilt]
    rw [if_neg (by simpa [List.isEmpty_iff] using h)]

/-- Witness for C10 at a concrete input: with rows at days 3, 5 and 20,
`today = 2` and a 7-day window, the rows at days 3 and 5 are summed. -/
theorem mdp_vaccine_supply_window_witness :
    (historic1.filter fun row =>
        decide ((2:ℤ) < row.date ∧ row.date ≤ 2 + ((28 / 4 : ℕ) : ℤ))) ≠ []
    ∧ exogenous_vaccine_supply 1 1 historic1 2 28 4
        = VaccineSupply.scalar (pythonInt
            (((historic1.filter fun row =>
                decide ((2:ℤ) < row.date ∧ row.date ≤ 2 + ((28 / 4 : ℕ) : ℤ))).map
              fun row => row.vaccine_supply_new).sum / 2)) :=
  ⟨by decide,
    (mdp_vaccine_supply_window 1 1 historic1 2 28 4).2 (by decide)⟩
